import Mathlib

/-!
Verification of the drugo-bot session/flow orchestration engine.

Shallow embedding of the relevant parts of `src/index.js` and
`src/utils/pagination.js`: JS strings are Lean `String`s, timestamps are
naturals (milliseconds), database stores are explicit lists/records, and
every effectful downstream call (user registration, login, e-mail
delivery, support handoff) is passed in as an explicit outcome value.
Store writes (Sequelize `save`/`create`/`update`) are modelled as pure
record updates that succeed.
-/

namespace Drugo

/-! ### JavaScript string primitives used by the source -/

/-- ASCII whitespace recognised by `String.prototype.trim` / `\s`
(restricted to the ASCII range, which is all the source ever feeds it). -/
def isJsWhitespace (c : Char) : Bool :=
  c = ' ' || c = '\t' || c = '\n' || c = '\r' || c = '\x0b' || c = '\x0c'

/-- JS `message.trim()`: drop leading and trailing whitespace. -/
def jsTrim (s : String) : String :=
  String.mk (((s.data.dropWhile isJsWhitespace).reverse.dropWhile isJsWhitespace).reverse)

/-- Lower-case one ASCII character, as `String.prototype.toLowerCase` does
on the ASCII inputs the bot compares against (codes 65-90 are A-Z). -/
def toLowerChar (c : Char) : Char :=
  if 65 ≤ c.toNat ∧ c.toNat ≤ 90 then Char.ofNat (c.toNat + 32) else c

/-- JS `message.toLowerCase()` (ASCII). -/
def jsToLower (s : String) : String :=
  String.mk (s.data.map toLowerChar)

/-- The regex class `\d` (codes 48-57 are the digits). -/
def isDigitChar (c : Char) : Bool := 48 ≤ c.toNat && c.toNat ≤ 57

/-- The regex `^\d+$`: a non-empty all-digit character list. -/
def isDigitStr (l : List Char) : Bool := !l.isEmpty && l.all isDigitChar

/-- JS `parseInt` on a string of decimal digits. -/
def digitsToNat (l : List Char) : Nat :=
  l.foldl (fun a c => a * 10 + (c.toNat - '0'.toNat)) 0

/-- The regex `^\d{4}$` applied in the OTP paths. -/
def is4DigitCode (s : String) : Bool :=
  s.data.length = 4 && s.data.all isDigitChar

/-! ### src/utils/pagination.js -/

/-- Embedding of `parseNavigationCommand` (src/utils/pagination.js:3-14).
`!message` is the JS falsy check (empty string); `nav` is the trimmed,
lower-cased message; the numeric branch runs `^\d+$` on the trimmed
message and bounds-checks the parsed page. -/
def parseNavigationCommand (message : String) (currentPage totalPages : Nat) : Option Nat :=
  if message = "" then none
  else
    let nav := jsToLower (jsTrim message)
    if nav = "next" ∧ currentPage < totalPages then some (currentPage + 1)
    else if nav = "previous" ∧ 1 < currentPage then some (currentPage - 1)
    else
      let t := (jsTrim message).data
      if isDigitStr t = true then
        let n := digitsToNat t
        if 1 ≤ n ∧ n ≤ totalPages then some n else none
      else none

/-! Helper lemmas about the string primitives. -/

lemma toLowerChar_of_digit {c : Char} (h : isDigitChar c = true) : toLowerChar c = c := by
  unfold isDigitChar at h
  simp only [Bool.and_eq_true, decide_eq_true_eq] at h
  unfold toLowerChar
  rw [if_neg]
  omega

lemma map_toLowerChar_of_digits {l : List Char} (h : l.all isDigitChar = true) :
    l.map toLowerChar = l := by
  induction l with
  | nil => rfl
  | cons c cs ih =>
    simp only [List.all_cons, Bool.and_eq_true] at h
    simp [toLowerChar_of_digit h.1, ih h.2]

/-- A string whose lower-casing is a word containing a non-digit cannot
itself be an all-digit string. -/
lemma not_digitStr_of_lower_eq {s w : String} (hw : isDigitStr w.data = false)
    (h : jsToLower s = w) : isDigitStr s.data = false := by
  cases hs : isDigitStr s.data with
  | false => rfl
  | true =>
    exfalso
    have hall : s.data.all isDigitChar = true := by
      unfold isDigitStr at hs
      exact ((Bool.and_eq_true _ _).mp hs).2
    have hdata : s.data.map toLowerChar = w.data := by
      have hd := congrArg String.data h
      simpa [jsToLower] using hd
    rw [map_toLowerChar_of_digits hall] at hdata
    rw [← hdata, hs] at hw
    exact Bool.noConfusion hw

/-- C8: the pagination target resolver recognizes exactly three command
shapes — case-insensitive "next" (only when `currentPage < totalPages`),
case-insensitive "previous" (only when `currentPage > 1`), and a bare
positive integer string in `[1, totalPages]` — and returns `none` for every
other input; in particular the six enumerated calls of the specification
evaluate as stated. -/
theorem resolveTarget_characterization :
    (∀ (m : String) (c t p : Nat),
      parseNavigationCommand m c t = some p ↔
        (jsToLower (jsTrim m) = "next" ∧ c < t ∧ p = c + 1)
        ∨ (jsToLower (jsTrim m) = "previous" ∧ 1 < c ∧ p = c - 1)
        ∨ (isDigitStr (jsTrim m).data = true ∧ 1 ≤ digitsToNat (jsTrim m).data ∧
            digitsToNat (jsTrim m).data ≤ t ∧ p = digitsToNat (jsTrim m).data))
    ∧ parseNavigationCommand ("next") 2 5 = some 3
    ∧ parseNavigationCommand ("next") 5 5 = none
    ∧ parseNavigationCommand ("previous") 1 5 = none
    ∧ parseNavigationCommand ("3") 1 5 = some 3
    ∧ parseNavigationCommand ("9") 1 5 = none
    ∧ parseNavigationCommand ("hello") 1 5 = none := by
  refine ⟨?_, by decide, by decide, by decide, by decide, by decide, by decide⟩
  intro m c t p
  simp only [parseNavigationCommand]
  split_ifs with h0 h1 h2 h3 h4
  · -- empty message
    subst h0
    constructor
    · intro h; exact h.elim
    · rintro (⟨hnext, -, -⟩ | ⟨hprev, -, -⟩ | ⟨hd, hb, -, -⟩)
      · exact absurd hnext (by decide)
      · exact absurd hprev (by decide)
      · rw [show isDigitStr (jsTrim "").data = false from by decide] at hd
        exact Bool.noConfusion hd
  · -- "next" with room
    constructor
    · intro h
      exact Or.inl ⟨h1.1, h1.2, (Option.some_inj.mp h).symm⟩
    · rintro (⟨-, -, hp⟩ | ⟨hprev, -, -⟩ | ⟨hd, -, -, -⟩)
      · rw [hp]
      · exact absurd (h1.1.symm.trans hprev) (by decide)
      · rw [not_digitStr_of_lower_eq (by decide) h1.1] at hd
        exact Bool.noConfusion hd
  · -- "previous" with room
    constructor
    · intro h
      exact Or.inr (Or.inl ⟨h2.1, h2.2, (Option.some_inj.mp h).symm⟩)
    · rintro (⟨hnext, hct, -⟩ | ⟨-, -, hp⟩ | ⟨hd, -, -, -⟩)
      · exact absurd ⟨hnext, hct⟩ h1
      · rw [hp]
      · rw [not_digitStr_of_lower_eq (by decide) h2.1] at hd
        exact Bool.noConfusion hd
  · -- all-digit message, in range
    constructor
    · intro h
      exact Or.inr (Or.inr ⟨h3, h4.1, h4.2, (Option.some_inj.mp h).symm⟩)
    · rintro (⟨hnext, hct, -⟩ | ⟨hprev, hc1, -⟩ | ⟨-, -, -, hp⟩)
      · exact absurd ⟨hnext, hct⟩ h1
      · exact absurd ⟨hprev, hc1⟩ h2
      · rw [hp]
  · -- all-digit message, out of range
    constructor
    · intro h; exact h.elim
    · rintro (⟨hnext, hct, -⟩ | ⟨hprev, hc1, -⟩ | ⟨-, hb1, hb2, -⟩)
      · exact absurd ⟨hnext, hct⟩ h1
      · exact absurd ⟨hprev, hc1⟩ h2
      · exact absurd ⟨hb1, hb2⟩ h4
  · -- not a digit string
    constructor
    · intro h; exact h.elim
    · rintro (⟨hnext, hct, -⟩ | ⟨hprev, hc1, -⟩ | ⟨hd, -, -, -⟩)
      · exact absurd ⟨hnext, hct⟩ h1
      · exact absurd ⟨hprev, hc1⟩ h2
      · exact absurd hd h3

/-! ### Data model: registration payloads, OTP records, sessions -/

/-- The sanitized registration payload (name, email, password, phone). -/
structure RegData where
  name : String
  email : String
  password : String
  phoneNumber : String
deriving DecidableEq, Repr

/-- An encrypted snapshot of a registration payload.
Modelled from the spec: `encryptData`/`decryptData` live in
`src/services/security.js`, which is absent from the sources; the spec says
the record carries "an encrypted snapshot of the payload the code protects
(so the payload survives a session loss or process restart)" and that the
payload "is recovered from the record's encrypted snapshot", so the pair is
modelled as an invertible wrapping of the payload. -/
structure Encrypted where
  plain : RegData
deriving DecidableEq, Repr

/-- Modelled from the spec: encryption of a registration snapshot. -/
def encryptData (r : RegData) : Encrypted := ⟨r⟩

/-- Modelled from the spec: decryption, inverse of `encryptData`. -/
def decryptData (e : Encrypted) : RegData := e.plain

/-- Modelled from the spec: `normalizePhoneNumber` (src/utils, absent from
the sources) canonicalizes the identity string; the identity is treated as
already canonical here. -/
def normalizePhoneNumber (p : String) : String := p

/-- One row of the OTP table (`src/models`): code, purpose, single-use
flag, expiry, creation time and the optional encrypted payload snapshot
under `meta.registrationData`. `id` is the row identity used by updates. -/
structure OTPRec where
  id : Nat
  email : String
  code : String
  purpose : String
  isUsed : Bool
  usedAt : Option Nat
  expiresAt : Nat
  createdAt : Nat
  meta : Option Encrypted
deriving DecidableEq, Repr

/-- Accumulator pass of `findLatest`: keeps the matching row with the
greatest `createdAt` (first seen wins ties), i.e. `findOne` with
`order: createdAt DESC`. -/
def findLatestAux (p : OTPRec → Bool) : Option OTPRec → List OTPRec → Option OTPRec
  | acc, [] => acc
  | acc, r :: rs =>
    findLatestAux p
      (if p r then
        match acc with
        | none => some r
        | some b => if b.createdAt < r.createdAt then some r else acc
      else acc) rs

/-- `OTP.findOne({where: p, order: createdAt DESC})`. -/
def findLatest (p : OTPRec → Bool) (rs : List OTPRec) : Option OTPRec :=
  findLatestAux p none rs

/-- `OTP.update(fields, {where: p})` / saving one mutated row: apply `f`
to every row satisfying `p`. -/
def updateWhere (p : OTPRec → Bool) (f : OTPRec → OTPRec) (rs : List OTPRec) : List OTPRec :=
  rs.map fun r => if p r then f r else r

/-- Modelled from the spec: `getOTPExpiry` (src/utils/otp.js, absent from
the sources) computes the fixed short validity window; the user-facing
messages and the spec both state "valid for 5 minutes". -/
def otpValidityMs : Nat := 5 * 60 * 1000

/-- Session states (`state` column). -/
inductive SessState
  | NEW | REGISTERING | LOGGING_IN | LOGGED_IN | SUPPORT_CHAT
deriving DecidableEq, Repr

/-- One pagination cursor stored in `session.data` per list kind. -/
structure Pagination where
  currentPage : Nat
  totalPages : Nat
  pageSize : Nat
deriving DecidableEq, Repr

/-- The open `session.data` mapping, with the named fields the orchestration
engine reads and writes. A JS key that is absent or `null` is `none` (a
`0`/`false`/empty default for the scalar fields), which matches how the
source only ever reads these fields behind `||`-defaults and truthiness
checks. -/
structure SessionData where
  userId : Option Nat := none
  token : Option String := none
  tokenLastUsed : Option Nat := none
  registrationData : Option RegData := none
  waitingForOTPVerification : Bool := false
  registrationAttempts : Nat := 0
  emailSendFailed : Bool := false
  pendingPrescriptionUrl : Option String := none
  pendingPrescriptionExtractedText : Option String := none
  productPagination : Option Pagination := none
  doctorPagination : Option Pagination := none
deriving DecidableEq, Repr

/-- A session row: identity, state, data. -/
structure Session where
  phoneNumber : String
  state : SessState
  data : SessionData
  supportTeamId : Option Nat := none
deriving DecidableEq, Repr

/-! ### Outcomes of downstream calls and user-facing replies -/

/-- Outcome of the `registerUser` domain call (the protected action). -/
inductive RegisterOutcome
  | ok (userId : Nat) (token : String)
  | err
deriving DecidableEq, Repr

/-- Outcome of the `loginUser` domain call (`""` models a missing token in
the success payload, which is falsy in JS). -/
inductive LoginOutcome
  | ok (userId : Nat) (token : String)
  | err
deriving DecidableEq, Repr

/-- The distinct user-facing reply templates the embedded handlers send. -/
inductive Reply
  | validationFailed
  | emailAlreadyRegistered
  | otpSent
  | otpEmailSendFailed
  | registrationSetupFailed
  | promptMissingFields
  | alreadyRegistered
  | resendNoActiveRegistration
  | resendSent
  | resendEmailSendFailed
  | loginInvalid
  | loginFailed
  | loginMissing
  | loginSuccess
  | alreadyLoggedIn
  | logoutSuccess
  | supportConnected
  | supportUnavailable
deriving DecidableEq, Repr

/-! ### One-time-code verification (src/index.js `handleRegistrationOTPVerification`) -/

/-- Result tags of a verification attempt, one per user-facing branch of
`handleRegistrationOTPVerification` (src/index.js:2368-2518). -/
inductive VerifyResult
  | invalidFormat
  | sessionExpired
  | invalidOTP
  | alreadyUsed
  | expired
  | success
  | registrationFailed
deriving DecidableEq, Repr

/-- The `where` clause used to look an OTP up by bare code
(src/index.js:2389-2395). -/
def otpByCode (otp : String) (r : OTPRec) : Bool :=
  r.code == otp && r.purpose == "registration"

/-- The `where` clause used to look an OTP up by email and code
(src/index.js:2439-2446). -/
def otpByEmailCode (email otp : String) (r : OTPRec) : Bool :=
  r.email == email && r.code == otp && r.purpose == "registration"

/-- Recovery of a lost registration payload from the OTP row's encrypted
`meta` snapshot (src/index.js:2397-2416): decrypt, require a truthy email,
default the phone number from the caller's identity. -/
def recoverFromMeta (o : Option OTPRec) (phone : String) : Option RegData :=
  match o with
  | none => none
  | some r =>
    match r.meta with
    | none => none
    | some enc =>
      let d := decryptData enc
      if d.email ≠ "" then
        some { d with phoneNumber := if d.phoneNumber = "" then normalizePhoneNumber phone else d.phoneNumber }
      else none

/-- Outcome of the consume phase: either a rejection (with the store and
session as left by that branch), or the code is consumed and the protected
action may run. -/
inductive OTPPhase1
  | reject (recs : List OTPRec) (session : Session) (result : VerifyResult)
  | ready (recs : List OTPRec) (rec : OTPRec) (regData : RegData) (session : Session)
deriving Repr

/-- Phase one of `handleRegistrationOTPVerification`
(src/index.js:2370-2472): format check, session reload, payload recovery
from the encrypted snapshot, record lookup (by code, then constrained to
the payload's email), single-use / expiry checks, and — on a match —
marking the code used *before* the protected action runs. -/
def otpConsumePhase (recs : List OTPRec) (session : Session) (otpCode : String) (now : Nat) :
    OTPPhase1 :=
  let otp := jsTrim otpCode
  if is4DigitCode otp = false then .reject recs session .invalidFormat
  else
    let registrationData₀ := session.data.registrationData
    let otpRecordByCode := findLatest (otpByCode otp) recs
    let needRecovery :=
      match registrationData₀ with
      | none => true
      | some rd => rd.email = ""
    let registrationData :=
      if needRecovery then
        match recoverFromMeta otpRecordByCode session.phoneNumber with
        | some d => some d
        | none => registrationData₀
      else registrationData₀
    match registrationData with
    | none =>
      .reject recs
        { session with data := { session.data with waitingForOTPVerification := false, registrationData := none } }
        .sessionExpired
    | some rd =>
      if rd.email = "" then
        .reject recs
          { session with data := { session.data with waitingForOTPVerification := false, registrationData := none } }
          .sessionExpired
      else
        let otpRecord :=
          match otpRecordByCode with
          | some r => if r.email == rd.email then some r else findLatest (otpByEmailCode rd.email otp) recs
          | none => findLatest (otpByEmailCode rd.email otp) recs
        match otpRecord with
        | none => .reject recs session .invalidOTP
        | some rec =>
          if rec.isUsed then .reject recs session .alreadyUsed
          else if decide (now > rec.expiresAt) then .reject recs session .expired
          else
            .ready (updateWhere (fun r => r.id == rec.id)
                      (fun r => { r with isUsed := true, usedAt := some now }) recs)
              rec rd session

/-- The store, session and result after a full verification attempt. -/
structure VerifyOutcome where
  recs : List OTPRec
  session : Session
  result : VerifyResult
deriving Repr

/-- Embedding of `handleRegistrationOTPVerification`
(src/index.js:2368-2518). After the consume phase, the protected action
`registerUser` runs: on success the session commits to `LOGGED_IN` with
fresh token fields and cleared code-workflow breadcrumbs; on failure the
code is reverted to unused and the session stays put, still awaiting a
code. `gtok` is the value `generateToken()` would produce. -/
def handleRegistrationOTPVerification (recs : List OTPRec) (session : Session)
    (otpCode : String) (now : Nat) (register : RegisterOutcome) (gtok : String) :
    VerifyOutcome :=
  match otpConsumePhase recs session otpCode now with
  | .reject r s res => ⟨r, s, res⟩
  | .ready consumed rec _rd s =>
    match register with
    | .ok uid tok =>
      ⟨consumed,
        { s with
          state := .LOGGED_IN,
          data := { s.data with
            userId := some uid,
            token := some (if tok = "" then gtok else tok),
            tokenLastUsed := some now,
            waitingForOTPVerification := false,
            registrationData := none,
            emailSendFailed := false } },
        .success⟩
    | .err =>
      ⟨updateWhere (fun r => r.id == rec.id)
          (fun r => { r with isUsed := false, usedAt := none }) consumed,
        { s with data := { s.data with waitingForOTPVerification := true } },
        .registrationFailed⟩

/-! ### OTP issuance paths -/

/-- The OTP row `OTP.create` inserts on either issuance path
(src/index.js:1668-1674 and 2333-2339). -/
def newOTPRow (freshId : Nat) (rd : RegData) (code : String) (now : Nat) : OTPRec :=
  { id := freshId, email := rd.email, code := code, purpose := "registration",
    isUsed := false, usedAt := none, expiresAt := now + otpValidityMs,
    createdAt := now, meta := some (encryptData rd) }

/-- Embedding of `handleRegistration` (src/index.js:1607-1721).
`pname`/`pemail`/`ppassword` are the classified parameters; `validOk` is
the outcome of `isValidRegistrationData`, `emailExists` the outcome of the
duplicate-email lookup, `code` the value `generateOTP()` produced,
`emailOk` the outcome of `sendOTPEmail`. Note that the OTP insertion does
NOT touch prior rows for the same (email, purpose). -/
def handleRegistration (recs : List OTPRec) (session : Session)
    (pname pemail ppassword : Option String) (validOk emailExists : Bool)
    (code : String) (freshId now : Nat) (emailOk : Bool) :
    List OTPRec × Session × Reply :=
  if session.state = .NEW ∨ session.state = .REGISTERING then
    match pname, pemail, ppassword with
    | some nm, some em, some pw =>
      let userData : RegData :=
        { name := nm, email := jsToLower em, password := pw,
          phoneNumber := normalizePhoneNumber session.phoneNumber }
      if validOk = false then (recs, session, .validationFailed)
      else if emailExists then (recs, session, .emailAlreadyRegistered)
      else
        let s₁ := { session with
          state := .REGISTERING,
          data := { session.data with
            registrationData := some userData, userId := none, token := none } }
        let recs₁ := newOTPRow freshId userData code now :: recs
        let s₂ := { s₁ with
          data := { s₁.data with
            waitingForOTPVerification := true,
            registrationAttempts := s₁.data.registrationAttempts + 1,
            emailSendFailed := !emailOk } }
        (recs₁, s₂, if emailOk then .otpSent else .otpEmailSendFailed)
    | _, _, _ => (recs, session, .promptMissingFields)
  else (recs, session, .alreadyRegistered)

/-- Embedding of `handleResendOTP` (src/index.js:2279-2366): requires a
pending registration payload, marks every prior unused row for the same
(email, purpose) as used (`OTP.update`), then inserts the fresh row. -/
def handleResendOTP (recs : List OTPRec) (session : Session) (newCode : String)
    (freshId now : Nat) (emailOk : Bool) : List OTPRec × Session × Reply :=
  match session.data.registrationData with
  | none =>
    (recs,
      { session with data := { session.data with
          waitingForOTPVerification := false, registrationData := none } },
      .resendNoActiveRegistration)
  | some rd =>
    if rd.email = "" then
      (recs,
        { session with data := { session.data with
            waitingForOTPVerification := false, registrationData := none } },
        .resendNoActiveRegistration)
    else
      let recs₁ := updateWhere
        (fun r => r.email == rd.email && r.purpose == "registration" && !r.isUsed)
        (fun r => { r with isUsed := true }) recs
      let recs₂ := newOTPRow freshId rd newCode now :: recs₁
      if emailOk then
        (recs₂,
          { session with data := { session.data with
              waitingForOTPVerification := true, registrationAttempts := 0,
              emailSendFailed := false } },
          .resendSent)
      else
        (recs₂,
          { session with data := { session.data with
              waitingForOTPVerification := true, emailSendFailed := true } },
          .resendEmailSendFailed)

/-! ### Other handlers -/

/-- Embedding of `handleLogout` (src/index.js:1577-1590): state `NEW`,
`data` fully cleared. -/
def handleLogout (session : Session) : Session × Reply :=
  ({ session with state := .NEW, data := {} }, .logoutSuccess)

/-- Modelled from the spec: `startSupportChat` (absent from the sources)
performs the support handoff; per the transition table the session goes to
`SUPPORT_CHAT`. -/
def startSupportChat (session : Session) : Session :=
  { session with state := .SUPPORT_CHAT }

/-- Embedding of `handleSupportRequest` (src/index.js:2257-2276): the
handoff is attempted; on failure the `catch` block sets the state to
`LOGGED_IN` — unconditionally, whatever the state was before — and sends a
single unavailability message. -/
def handleSupportRequest (session : Session) (handoffOk : Bool) : Session × Reply :=
  if handoffOk then (startSupportChat session, .supportConnected)
  else ({ session with state := .LOGGED_IN, supportTeamId := none }, .supportUnavailable)

/-- Embedding of `handleLogin` (src/index.js:1724-1780): the `LOGGING_IN`
transition is committed (saved) before the fallible work; `validOk` is the
outcome of `isValidLoginData`, `outcome` of `loginUser`; `gtok` is the
value `generateToken()` would produce. -/
def handleLogin (session : Session) (pemail ppassword : Option String)
    (validOk : Bool) (outcome : LoginOutcome) (now : Nat) (gtok : String) :
    Session × Reply :=
  if session.state = .NEW ∨ session.state = .LOGGING_IN then
    let s₁ := { session with state := .LOGGING_IN }
    match pemail, ppassword with
    | some _, some _ =>
      if validOk = false then (s₁, .loginInvalid)
      else
        match outcome with
        | .ok uid tok =>
          ({ s₁ with
            state := .LOGGED_IN,
            data := { s₁.data with
              userId := some uid,
              token := some (if tok = "" then gtok else tok),
              tokenLastUsed := some now } },
            .loginSuccess)
        | .err => (s₁, .loginFailed)
    | _, _ => (s₁, .loginMissing)
  else (session, .alreadyLoggedIn)

/-- Embedding of the webhook media branch when no order id is in the
caption (src/index.js:538-551): the uploaded file's URL (and any OCR text)
is stored in `session.data` as pending, with the state untouched. -/
def webhookMediaPendingSave (session : Session) (url : String)
    (extractedText : Option String) : Session :=
  { session with data := { session.data with
      pendingPrescriptionUrl := some url,
      pendingPrescriptionExtractedText :=
        match extractedText with
        | some t => if t = "" then session.data.pendingPrescriptionExtractedText else some t
        | none => session.data.pendingPrescriptionExtractedText } }

/-- Embedding of the idle-timeout block at the top of
`handleCustomerMessage` (src/index.js:1176-1204): only a `LOGGED_IN`
session is examined; if `now - tokenLastUsed > idleMs` it is reset to `NEW`
with `data` cleared (and the event ends there); otherwise the token is
ensured and `tokenLastUsed` refreshed. Returns the session and whether the
idle expiry fired. -/
def idleCheck (session : Session) (now idleMs : Nat) (gtok : String) : Session × Bool :=
  if session.state = .LOGGED_IN then
    let touched := { session with data := { session.data with
      token := some (match session.data.token with
        | some tk => if tk = "" then gtok else tk
        | none => gtok),
      tokenLastUsed := some now } }
    match session.data.tokenLastUsed with
    | some t =>
      if now - t > idleMs then ({ session with state := .NEW, data := {} }, true)
      else (touched, false)
    | none => (touched, false)
  else (session, false)

/-! ### Authentication gate and intent gating -/

/-- Embedding of `isAuthenticatedSession` (src/index.js:1557-1569): a
`none` argument is the JS `null`/malformed session, for which the guard
returns `false` instead of throwing. A `userId` of `0` is falsy in JS. -/
def isAuthenticatedSession : Option Session → Bool
  | none => false
  | some s =>
    if s.state = .LOGGED_IN then true
    else
      match s.data.userId with
      | some u => u != 0
      | none => false

/-- JS truthiness of the stored `userId`, for stating the characterization. -/
def userIdTruthy : Option Nat → Bool
  | some u => u != 0
  | none => false

/-- Which intents the dispatcher guards behind `isLoggedIn`
(src/index.js:1336-1451): the authenticated-only cases of the switch. -/
def intentRequiresAuth (i : String) : Bool :=
  i == "search_products" || i == "add_to_cart" || i == "place_order" ||
  i == "track_order" || i == "search_doctors" || i == "book_appointment" ||
  i == "payment" || i == "diagnostic_tests" || i == "healthcare_products"

/-- Whether the dispatcher routes intent `i` to its handler (rather than
replying "authentication required"), per the switch in
`handleCustomerMessage`. -/
def intentGranted (i : String) (s : Session) : Bool :=
  !(intentRequiresAuth i) || isAuthenticatedSession (some s)

/-! ### The per-event gate cascade of `handleCustomerMessage` -/

/-- The exit phrases of the support-chat passthrough
(src/index.js:1211, regex `^(close|exit|end chat|stop support)$/i` on the
trimmed message). -/
def exitSupportMatches (m : String) : Bool :=
  let s := jsToLower (jsTrim m)
  s == "close" || s == "exit" || s == "end chat" || s == "stop support"

/-- Case-insensitive literal-word match at the head of a character list
(the word is given lower-case). -/
def startsWithCI (l w : List Char) : Bool :=
  (l.take w.length).map toLowerChar == w

/-- The `\s+#?\d+` tail of the quick-attach regex. -/
def attachTailOk : List Char → Bool
  | [] => false
  | c :: rest =>
    isJsWhitespace c &&
      (let r := (c :: rest).dropWhile isJsWhitespace
       let r₂ := match r with
         | '#' :: tl => tl
         | _ => r
       match r₂ with
       | d :: _ => isDigitChar d
       | [] => false)

/-- The quick-attach command test (src/index.js:1230, regex
`^(?:rx|attach|link)\s+#?(\d+)/i` on the trimmed message). -/
def attachCmdMatches (m : String) : Bool :=
  let cs := (jsTrim m).data
  (startsWithCI cs [ 'r', 'x' ] && attachTailOk (cs.drop 2))
  || (startsWithCI cs [ 'a', 't', 't', 'a', 'c', 'h' ] && attachTailOk (cs.drop 6))
  || (startsWithCI cs [ 'l', 'i', 'n', 'k' ] && attachTailOk (cs.drop 4))

/-- The resend command test (src/index.js:1309, regex
`^(resend|retry|send again)$` on the lower-cased, trimmed message). -/
def resendCmdMatches (m : String) : Bool :=
  let s := jsTrim (jsToLower m)
  s == "resend" || s == "retry" || s == "send again"

/-- Which gate of `handleCustomerMessage` fires for a message, in the
source's evaluation order. -/
inductive Gate
  | supportExit
  | supportForward
  | quickAttach
  | productPageNav (target : Nat)
  | doctorPageNav (target : Nat)
  | otpVerify (code : String)
  | otpResend
  | otpReprompt
  | nlp
deriving DecidableEq, Repr

/-- The pending-OTP stage of the cascade (src/index.js:1305-1325). -/
def gateOTPStage (s : Session) (m : String) : Gate :=
  if s.state = .REGISTERING ∨ s.data.waitingForOTPVerification = true then
    if is4DigitCode (jsTrim m) then .otpVerify (jsTrim m)
    else if resendCmdMatches m then .otpResend
    else if s.state = .REGISTERING ∧ s.data.waitingForOTPVerification = true then .otpReprompt
    else .nlp
  else .nlp

/-- The doctor-pagination stage of the cascade (src/index.js:1277-1303). -/
def gateDoctorStage (s : Session) (m : String) : Gate :=
  match s.data.doctorPagination with
  | some pg =>
    match parseNavigationCommand m pg.currentPage pg.totalPages with
    | some tp => .doctorPageNav tp
    | none => gateOTPStage s m
  | none => gateOTPStage s m

/-- The product-pagination stage of the cascade (src/index.js:1250-1275). -/
def gateProductStage (s : Session) (m : String) : Gate :=
  match s.data.productPagination with
  | some pg =>
    match parseNavigationCommand m pg.currentPage pg.totalPages with
    | some tp => .productPageNav tp
    | none => gateDoctorStage s m
  | none => gateDoctorStage s m

/-- Embedding of the gate cascade of `handleCustomerMessage`
(src/index.js:1206-1332), in the source's order: support-chat passthrough,
then the quick-attach command, then the pagination cursors, then the
pending-OTP checks, then NLP intent classification. -/
def dispatchGate (s : Session) (m : String) : Gate :=
  if s.state = .SUPPORT_CHAT then
    if exitSupportMatches m then .supportExit else .supportForward
  else if attachCmdMatches m then .quickAttach
  else gateProductStage s m

/-- The navigation target the product cursor would resolve, if any. -/
def prodNavTarget (s : Session) (m : String) : Option Nat :=
  match s.data.productPagination with
  | some pg => parseNavigationCommand m pg.currentPage pg.totalPages
  | none => none

/-- The navigation target the doctor cursor would resolve, if any. -/
def docNavTarget (s : Session) (m : String) : Option Nat :=
  match s.data.doctorPagination with
  | some pg => parseNavigationCommand m pg.currentPage pg.totalPages
  | none => none

/-- The gate cascade in the priority order the SPECIFICATION states
(spec §4.6: support passthrough, then pending one-time-code
verification/resend, then quick-attach, then pagination, then NLP).
Written from the spec's words, for comparison with `dispatchGate`. -/
def claimedDispatchGate (s : Session) (m : String) : Gate :=
  if s.state = .SUPPORT_CHAT then
    if exitSupportMatches m then .supportExit else .supportForward
  else if (s.state = .REGISTERING ∨ s.data.waitingForOTPVerification = true)
      ∧ (is4DigitCode (jsTrim m) = true ∨ resendCmdMatches m = true) then
    if is4DigitCode (jsTrim m) then .otpVerify (jsTrim m) else .otpResend
  else if attachCmdMatches m then .quickAttach
  else
    match s.data.productPagination with
    | some pg =>
      (match parseNavigationCommand m pg.currentPage pg.totalPages with
       | some tp => .productPageNav tp
       | none =>
         match s.data.doctorPagination with
         | some pg' =>
           (match parseNavigationCommand m pg'.currentPage pg'.totalPages with
            | some tp' => .doctorPageNav tp'
            | none => .nlp)
         | none => .nlp)
    | none =>
      match s.data.doctorPagination with
      | some pg' =>
        (match parseNavigationCommand m pg'.currentPage pg'.totalPages with
         | some tp' => .doctorPageNav tp'
         | none => .nlp)
      | none => .nlp

/-! ### Concrete sessions used by the counterexamples -/

/-- A freshly created session: state `NEW`, empty `data`
(src/index.js:1159-1165). -/
def sessNewEmpty : Session := { phoneNumber := ("234"), state := .NEW, data := {} }

/-- A session in the middle of registration that also holds a product
pagination cursor (set earlier by a product browse, src/index.js:1791). -/
def c5Session : Session :=
  { phoneNumber := ("234"), state := .REGISTERING,
    data := { waitingForOTPVerification := true,
              productPagination := some { currentPage := 1, totalPages := 2000, pageSize := 5 } } }

/-- A session in the middle of registration, no pagination cursors. -/
def sessRegisteringWaiting : Session :=
  { phoneNumber := ("234"), state := .REGISTERING,
    data := { waitingForOTPVerification := true } }

/-- A `REGISTERING` session whose data carries a truthy `userId`. -/
def sessRegUser7 : Session :=
  { phoneNumber := ("234"), state := .REGISTERING, data := { userId := some 7 } }

/-- A logged-in session whose token was last used at time 0. -/
def sessLoggedInIdle : Session :=
  { phoneNumber := ("234"), state := .LOGGED_IN,
    data := { userId := some 1, token := some ("tk"), tokenLastUsed := some 0 } }

/-! ### C10 — authentication gate -/

/-- C10: the authentication gate treats a session as authenticated iff its
state is `LOGGED_IN` or its data carries a truthy `userId`; an
authenticated-only intent is therefore granted to a non-`LOGGED_IN`
session whose data carries a `userId`; and the gate returns `false`
(rather than throwing) on a null session. -/
theorem auth_gate_characterization :
    isAuthenticatedSession none = false
    ∧ (∀ s, isAuthenticatedSession (some s) =
        (decide (s.state = SessState.LOGGED_IN) || userIdTruthy s.data.userId))
    ∧ (∀ s u i, s.state ≠ SessState.LOGGED_IN → s.data.userId = some u → u ≠ 0 →
        intentRequiresAuth i = true → intentGranted i s = true) := by
  refine ⟨rfl, ?_, ?_⟩
  · intro s
    by_cases hs : s.state = SessState.LOGGED_IN
    · simp [isAuthenticatedSession, hs]
    · cases hu : s.data.userId with
      | none => simp [isAuthenticatedSession, userIdTruthy, hs, hu]
      | some u => simp [isAuthenticatedSession, userIdTruthy, hs, hu]
  · intro s u i hs hu hu0 _
    simp only [intentGranted, isAuthenticatedSession, Bool.or_eq_true]
    right
    simp [hs, hu, hu0]

/-- Witness for C10 at a concrete `REGISTERING` session carrying a
`userId`: the cart intent is granted though the state is not `LOGGED_IN`. -/
theorem auth_gate_characterization_witness :
    intentGranted ("add_to_cart") sessRegUser7 = true := by
  exact auth_gate_characterization.2.2 sessRegUser7 7 ("add_to_cart")
    (by decide) rfl (by decide) (by decide)

/-! ### C4 — idle-timeout expiry -/

/-- C4: a `LOGGED_IN` session with a recorded `tokenLastUsed` is expired on
the next inbound event iff `now - tokenLastUsed` exceeds the idle timeout;
exactly then it is reset to `NEW` with `data` cleared entirely, otherwise
it stays `LOGGED_IN`; for non-`LOGGED_IN` states the idle check is a
no-op. -/
theorem idle_expiry_spec (s : Session) (now idleMs : Nat) (g : String) :
    (∀ t, s.state = SessState.LOGGED_IN → s.data.tokenLastUsed = some t →
      (((idleCheck s now idleMs g).2 = true) ↔ now - t > idleMs)
      ∧ (now - t > idleMs →
          (idleCheck s now idleMs g).1.state = SessState.NEW
          ∧ (idleCheck s now idleMs g).1.data = {})
      ∧ (¬ now - t > idleMs →
          (idleCheck s now idleMs g).1.state = SessState.LOGGED_IN
          ∧ (idleCheck s now idleMs g).2 = false))
    ∧ (s.state ≠ SessState.LOGGED_IN → idleCheck s now idleMs g = (s, false)) := by
  constructor
  · intro t hst ht
    by_cases hi : now - t > idleMs
    · simp [idleCheck, hst, ht, hi]
    · simp [idleCheck, hst, ht, hi]
  · intro hst
    simp [idleCheck, hst]

/-- Witness for C4: a session idle for 700 seconds against a 600-second
timeout is expired and reset; one idle for 100 seconds is not. -/
theorem idle_expiry_spec_witness :
    ((idleCheck sessLoggedInIdle 700000 600000 ("g")).1.state = SessState.NEW)
    ∧ ((idleCheck sessLoggedInIdle 100000 600000 ("g")).2 = false) := by
  constructor
  · exact ((idle_expiry_spec sessLoggedInIdle 700000 600000 ("g")).1 0 rfl rfl).2.1
      (by decide) |>.1
  · exact ((idle_expiry_spec sessLoggedInIdle 100000 600000 ("g")).1 0 rfl rfl).2.2
      (by decide) |>.2

/-! ### C6 — handler failure semantics -/

/-- Counterexample for C6: the support intent is not gated by
authentication, and when the handoff fails for a `NEW` session the catch
block of `handleSupportRequest` commits state `LOGGED_IN` — a session that
was not `LOGGED_IN` before the handler is `LOGGED_IN` after it fails. -/
theorem support_failure_state_counterexample :
    sessNewEmpty.state ≠ SessState.LOGGED_IN
    ∧ intentGranted ("support") sessNewEmpty = true
    ∧ (handleSupportRequest sessNewEmpty false).1.state = SessState.LOGGED_IN := by
  decide

/-- C6 as amended: exceptions in a handler are caught at the handler
boundary and turned into a single apology reply; the login handler leaves
the session in the `LOGGING_IN` state it committed before the failure
point (with `data` untouched); but the support handler's failure path sets
the state to `LOGGED_IN` regardless of the pre-handler state. -/
theorem handler_failure_semantics (s : Session) (e p g : String) (now : Nat) (v : Bool) :
    ((s.state = SessState.NEW ∨ s.state = SessState.LOGGING_IN) →
      (handleLogin s (some e) (some p) v .err now g).1.state = SessState.LOGGING_IN
      ∧ (handleLogin s (some e) (some p) v .err now g).1.data = s.data
      ∧ ((handleLogin s (some e) (some p) v .err now g).2 = Reply.loginFailed
         ∨ (handleLogin s (some e) (some p) v .err now g).2 = Reply.loginInvalid))
    ∧ ((handleSupportRequest s false).1.state = SessState.LOGGED_IN
       ∧ (handleSupportRequest s false).2 = Reply.supportUnavailable) := by
  constructor
  · intro hst
    cases v with
    | false => simp [handleLogin, hst]
    | true => simp [handleLogin, hst]
  · simp [handleSupportRequest]

/-- Witness for C6 at a concrete `NEW` session with a failing login. -/
theorem handler_failure_semantics_witness :
    (handleLogin sessNewEmpty (some ("a@b")) (some ("pw")) true .err 0 ("g")).1.state
      = SessState.LOGGING_IN := by
  exact ((handler_failure_semantics sessNewEmpty ("a@b") ("pw") ("g") 0 true).1
    (Or.inl rfl)).1

/-! ### C7 — session invariants at commit points -/

/-- Counterexample for C7: the webhook media branch commits a `NEW` session
whose `data` now carries a pending attachment — `state=NEW` no longer
implies empty `data`. -/
theorem session_invariant_counterexample :
    (webhookMediaPendingSave sessNewEmpty ("https://cdn/x.png") none).state = SessState.NEW
    ∧ (webhookMediaPendingSave sessNewEmpty ("https://cdn/x.png") none).data
        ≠ ({} : SessionData) := by
  decide

/-- C7 as amended: `LOGGED_IN` implies a non-empty token and `NEW` implies
empty data at the logout, idle-expiry, login-success and
registration-completion commit points; but the media-upload path commits a
session with non-empty pending-attachment data without touching its state,
and the support-failure path commits `LOGGED_IN` without touching the
token. -/
theorem session_invariant_commit_points (s : Session) (uid : Nat)
    (tok g e p u : String) (now : Nat) :
    ((handleLogout s).1.state = SessState.NEW ∧ (handleLogout s).1.data = {})
    ∧ (∀ idleMs, (idleCheck s now idleMs g).2 = true →
        (idleCheck s now idleMs g).1.state = SessState.NEW
        ∧ (idleCheck s now idleMs g).1.data = {})
    ∧ (g ≠ "" → (s.state = SessState.NEW ∨ s.state = SessState.LOGGING_IN) →
        (handleLogin s (some e) (some p) true (.ok uid tok) now g).1.state = SessState.LOGGED_IN
        ∧ ∃ tk, (handleLogin s (some e) (some p) true (.ok uid tok) now g).1.data.token = some tk
            ∧ tk ≠ "")
    ∧ (∀ recs c now' cr rec rd s', g ≠ "" →
        otpConsumePhase recs s c now' = .ready cr rec rd s' →
        (handleRegistrationOTPVerification recs s c now' (.ok uid tok) g).session.state
            = SessState.LOGGED_IN
        ∧ ∃ tk, (handleRegistrationOTPVerification recs s c now' (.ok uid tok) g).session.data.token
            = some tk ∧ tk ≠ "")
    ∧ ((webhookMediaPendingSave s u none).state = s.state
       ∧ (webhookMediaPendingSave s u none).data ≠ ({} : SessionData))
    ∧ ((handleSupportRequest s false).1.state = SessState.LOGGED_IN
       ∧ (handleSupportRequest s false).1.data.token = s.data.token) := by
  refine ⟨⟨rfl, rfl⟩, ?_, ?_, ?_, ⟨rfl, ?_⟩, by simp [handleSupportRequest]⟩
  · intro idleMs hexp
    by_cases hst : s.state = SessState.LOGGED_IN
    · cases ht : s.data.tokenLastUsed with
      | none => simp [idleCheck, hst, ht] at hexp
      | some t =>
        by_cases hi : now - t > idleMs
        · simp [idleCheck, hst, ht, hi]
        · simp [idleCheck, hst, ht, hi] at hexp
    · simp [idleCheck, hst] at hexp
  · intro hg hst
    constructor
    · simp [handleLogin, hst]
    · refine ⟨if tok = "" then g else tok, by simp [handleLogin, hst], ?_⟩
      by_cases htok : tok = ""
      · simpa [htok] using hg
      · simp [htok]
  · intro recs c now' cr rec rd s' hg hph
    constructor
    · simp [handleRegistrationOTPVerification, hph]
    · refine ⟨if tok = "" then g else tok, ?_, ?_⟩
      · simp [handleRegistrationOTPVerification, hph]
      · by_cases htok : tok = ""
        · simpa [htok] using hg
        · simp [htok]
  · intro hdat
    have hfield := congrArg SessionData.pendingPrescriptionUrl hdat
    simp [webhookMediaPendingSave] at hfield

/-- Witness for C7 at concrete inputs: logout clears, a successful login
commits a non-empty token. -/
theorem session_invariant_commit_points_witness :
    ((handleLogout sessNewEmpty).1.data = {})
    ∧ (handleLogin sessNewEmpty (some ("a@b")) (some ("pw")) true (.ok 7 ("tok")) 0
        ("g")).1.state = SessState.LOGGED_IN := by
  constructor
  · exact (session_invariant_commit_points sessNewEmpty 7 ("tok") ("g") ("a@b") ("pw")
      ("u") 0).1.2
  · exact ((session_invariant_commit_points sessNewEmpty 7 ("tok") ("g") ("a@b") ("pw")
      ("u") 0).2.2.1 (by decide) (Or.inl rfl)).1

/-! ### C5 — gate priority order -/

/-- Counterexample for C5: for a `REGISTERING` session holding a product
pagination cursor, the message "1234" satisfies both the pending-OTP gate
and the pagination gate; the specification's priority order would verify
it as an OTP, but the source's cascade consumes it as a page navigation. -/
theorem dispatch_priority_counterexample :
    claimedDispatchGate c5Session ("1234") = Gate.otpVerify ("1234")
    ∧ dispatchGate c5Session ("1234") = Gate.productPageNav 1234
    ∧ Gate.otpVerify ("1234") ≠ Gate.productPageNav 1234 := by
  decide

/-- C5 as amended: the dispatcher evaluates the gates in this priority
order, highest first — (1) active support-chat passthrough, (2) quick
attach command, (3) pagination navigation (products, then doctors),
(4) pending one-time-code verification/resend, (5) general intent
classification; the pending one-time-code check is evaluated AFTER the
quick-attach and pagination checks. -/
theorem dispatch_priority_order (s : Session) (m : String) :
    (s.state = SessState.SUPPORT_CHAT →
      dispatchGate s m = Gate.supportExit ∨ dispatchGate s m = Gate.supportForward)
    ∧ (s.state ≠ SessState.SUPPORT_CHAT → attachCmdMatches m = true →
        dispatchGate s m = Gate.quickAttach)
    ∧ (∀ tp, s.state ≠ SessState.SUPPORT_CHAT → attachCmdMatches m = false →
        prodNavTarget s m = some tp → dispatchGate s m = Gate.productPageNav tp)
    ∧ (∀ tp, s.state ≠ SessState.SUPPORT_CHAT → attachCmdMatches m = false →
        prodNavTarget s m = none → docNavTarget s m = some tp →
        dispatchGate s m = Gate.doctorPageNav tp)
    ∧ (s.state ≠ SessState.SUPPORT_CHAT → attachCmdMatches m = false →
        prodNavTarget s m = none → docNavTarget s m = none →
        (s.state = SessState.REGISTERING ∨ s.data.waitingForOTPVerification = true) →
        is4DigitCode (jsTrim m) = true →
        dispatchGate s m = Gate.otpVerify (jsTrim m)) := by
  refine ⟨?_, ?_, ?_, ?_, ?_⟩
  · intro hst
    by_cases hex : exitSupportMatches m = true
    · exact Or.inl (by simp [dispatchGate, hst, hex])
    · exact Or.inr (by simp [dispatchGate, hst, hex])
  · intro hst hat
    simp [dispatchGate, hst, hat]
  · intro tp hst hat hprod
    cases hpp : s.data.productPagination with
    | none => simp [prodNavTarget, hpp] at hprod
    | some pg =>
      have hnav : parseNavigationCommand m pg.currentPage pg.totalPages = some tp := by
        simpa [prodNavTarget, hpp] using hprod
      simp [dispatchGate, hst, hat, gateProductStage, hpp, hnav]
  · intro tp hst hat hprod hdoc
    cases hdp : s.data.doctorPagination with
    | none => simp [docNavTarget, hdp] at hdoc
    | some pg' =>
      have hnav' : parseNavigationCommand m pg'.currentPage pg'.totalPages = some tp := by
        simpa [docNavTarget, hdp] using hdoc
      cases hpp : s.data.productPagination with
      | none =>
        simp [dispatchGate, hst, hat, gateProductStage, hpp, gateDoctorStage, hdp, hnav']
      | some pg =>
        have hnav : parseNavigationCommand m pg.currentPage pg.totalPages = none := by
          simpa [prodNavTarget, hpp] using hprod
        simp [dispatchGate, hst, hat, gateProductStage, hpp, hnav,
          gateDoctorStage, hdp, hnav']
  · intro hst hat hprod hdoc hpend h4
    have hotp : gateOTPStage s m = Gate.otpVerify (jsTrim m) := by
      simp [gateOTPStage, hpend, h4]
    have hdocstage : gateDoctorStage s m = Gate.otpVerify (jsTrim m) := by
      cases hdp : s.data.doctorPagination with
      | none => simp [gateDoctorStage, hdp, hotp]
      | some pg' =>
        have hnav' : parseNavigationCommand m pg'.currentPage pg'.totalPages = none := by
          simpa [docNavTarget, hdp] using hdoc
        simp [gateDoctorStage, hdp, hnav', hotp]
    have hprodstage : gateProductStage s m = Gate.otpVerify (jsTrim m) := by
      cases hpp : s.data.productPagination with
      | none => simp [gateProductStage, hpp, hdocstage]
      | some pg =>
        have hnav : parseNavigationCommand m pg.currentPage pg.totalPages = none := by
          simpa [prodNavTarget, hpp] using hprod
        simp [gateProductStage, hpp, hnav, hdocstage]
    simp [dispatchGate, hst, hat, hprodstage]

/-- Witness for C5: a `REGISTERING` session with no cursors routes "1234"
to OTP verification. -/
theorem dispatch_priority_order_witness :
    dispatchGate sessRegisteringWaiting ("1234") = Gate.otpVerify (jsTrim ("1234")) := by
  exact (dispatch_priority_order sessRegisteringWaiting ("1234")).2.2.2.2
    (by decide) (by decide) (by decide) (by decide) (Or.inl rfl) (by decide)

/-! ### C3 — superseding prior codes on issuance -/

/-- The first registration submission of the C3 scenario. -/
def c3Step1 : List OTPRec × Session × Reply :=
  handleRegistration [] sessNewEmpty (some ("John")) (some ("john@x.com"))
    (some ("secret1")) true false ("1111") 1 0 true

/-- The re-submission of the same registration a minute later. -/
def c3Step2 : List OTPRec × Session × Reply :=
  handleRegistration c3Step1.1 c3Step1.2.1 (some ("John")) (some ("john@x.com"))
    (some ("secret1")) true false ("2222") 2 60000 true

/-- Counterexample for C3: after a registration re-submission the prior
code is still unused and unexpired — two meaningful codes coexist — and the
superseded-in-spec first code still verifies successfully. -/
theorem otp_supersede_counterexample :
    ((c3Step2.1.filter fun r => !r.isUsed && decide (120000 ≤ r.expiresAt)).length = 2)
    ∧ (handleRegistrationOTPVerification c3Step2.1 c3Step2.2.1 ("1111") 120000
        (.ok 7 ("tok")) ("g")).result = VerifyResult.success := by
  decide

/-- C3 as amended: the explicit resend path does supersede — after
`handleResendOTP` every row for the same (email, purpose) other than the
freshly inserted one is marked used, and the fresh unused row is present —
but the registration(-re-submission) issuance path inserts a new code
without invalidating prior unused ones. -/
theorem otp_resend_supersedes (recs : List OTPRec) (session : Session) (rd : RegData)
    (code : String) (freshId now : Nat) (emailOk : Bool)
    (hrd : session.data.registrationData = some rd) (he : rd.email ≠ "") :
    (∀ r ∈ (handleResendOTP recs session code freshId now emailOk).1,
        r.email = rd.email → r.purpose = "registration" → r.id ≠ freshId →
        r.isUsed = true)
    ∧ newOTPRow freshId rd code now ∈ (handleResendOTP recs session code freshId now emailOk).1
    ∧ (∀ s' pn pe pp v ex c fid n eok, s'.state = SessState.REGISTERING →
        (handleRegistration recs s' pn pe pp v ex c fid n eok).1 = recs
        ∨ ∃ row, (handleRegistration recs s' pn pe pp v ex c fid n eok).1 = row :: recs) := by
  have hrecs : (handleResendOTP recs session code freshId now emailOk).1
      = newOTPRow freshId rd code now
        :: updateWhere (fun r => r.email == rd.email && r.purpose == "registration" && !r.isUsed)
            (fun r => { r with isUsed := true }) recs := by
    cases emailOk with
    | false => simp [handleResendOTP, hrd, he]
    | true => simp [handleResendOTP, hrd, he]
  refine ⟨?_, ?_, ?_⟩
  · intro r hr hmail hpurp hid
    rw [hrecs] at hr
    rcases List.mem_cons.mp hr with hr | hr
    · exact absurd (congrArg OTPRec.id hr) (by simpa [newOTPRow] using hid)
    · rcases List.mem_map.mp hr with ⟨r₀, hr₀, hup⟩
      by_cases hcond : (r₀.email == rd.email && r₀.purpose == "registration" && !r₀.isUsed) = true
      · rw [if_pos hcond] at hup
        rw [← hup]
      · rw [if_neg hcond] at hup
        subst hup
        simp only [Bool.and_eq_true, beq_iff_eq, Bool.not_eq_true', not_and] at hcond
        have := hcond ⟨hmail, hpurp⟩
        simpa using this
  · rw [hrecs]
    exact List.mem_cons_self _ _
  · intro s' pn pe pp v ex c fid n eok hst
    cases pn with
    | none => exact Or.inl (by simp [handleRegistration, hst])
    | some nm =>
      cases pe with
      | none => exact Or.inl (by simp [handleRegistration, hst])
      | some em =>
        cases pp with
        | none => exact Or.inl (by simp [handleRegistration, hst])
        | some pw =>
          cases v with
          | false => exact Or.inl (by simp [handleRegistration, hst])
          | true =>
            cases ex with
            | true => exact Or.inl (by simp [handleRegistration, hst])
            | false =>
              refine Or.inr ⟨newOTPRow fid
                { name := nm, email := jsToLower em, password := pw,
                  phoneNumber := normalizePhoneNumber s'.phoneNumber } c n, ?_⟩
              simp [handleRegistration, hst]

/-- The registration payload of the resend witness scenario. -/
def wResendRd : RegData :=
  { name := ("J"), email := ("a@b"), password := ("pw"), phoneNumber := ("234") }

/-- A prior unused OTP row for the resend witness scenario. -/
def wResendRow : OTPRec :=
  { id := 1, email := ("a@b"), code := ("1111"), purpose := ("registration"),
    isUsed := false, usedAt := none, expiresAt := 300000, createdAt := 0, meta := none }

/-- The session of the resend witness scenario. -/
def wResendSession : Session :=
  { phoneNumber := ("234"), state := .REGISTERING,
    data := { registrationData := some wResendRd, waitingForOTPVerification := true } }

/-- Witness for C3's amended theorem: on a concrete store the fresh row is
present after the resend. -/
theorem otp_resend_supersedes_witness :
    newOTPRow 5 wResendRd ("2222") 1000
      ∈ (handleResendOTP [wResendRow] wResendSession ("2222") 5 1000 true).1 := by
  exact (otp_resend_supersedes [wResendRow] wResendSession wResendRd
    ("2222") 5 1000 true rfl (by decide)).2.1

/-! ### Interaction of `findLatest` with row updates -/

/-- Mapping a row transformation that preserves the search predicate and
`createdAt` through the store commutes with `findLatestAux`. -/
lemma findLatestAux_map (p : OTPRec → Bool) (g : OTPRec → OTPRec)
    (hp : ∀ r, p (g r) = p r) (hc : ∀ r, (g r).createdAt = r.createdAt) :
    ∀ (rs : List OTPRec) (acc : Option OTPRec),
      findLatestAux p (Option.map g acc) (List.map g rs)
        = Option.map g (findLatestAux p acc rs) := by
  intro rs
  induction rs with
  | nil => intro acc; rfl
  | cons r rs ih =>
    intro acc
    simp only [List.map_cons, findLatestAux, hp r]
    by_cases hpr : p r = true
    · simp only [if_pos hpr]
      cases acc with
      | none => simpa using ih (some r)
      | some b =>
        simp only [Option.map_some', hc r, hc b]
        by_cases hlt : b.createdAt < r.createdAt
        · simp only [if_pos hlt]
          simpa using ih (some r)
        · simp only [if_neg hlt]
          simpa using ih (some b)
    · simp only [if_neg hpr]
      exact ih acc

/-- `findLatest` by code after an `updateWhere` keyed on a row id: the
same row is found, transformed — updates never touch `code`, `purpose` or
`createdAt`. -/
lemma findLatest_updateWhere_id (otp : String) (rs : List OTPRec) (i : Nat)
    (f : OTPRec → OTPRec)
    (hcode : ∀ r, (f r).code = r.code) (hpurp : ∀ r, (f r).purpose = r.purpose)
    (hcreated : ∀ r, (f r).createdAt = r.createdAt) :
    findLatest (otpByCode otp) (updateWhere (fun r => r.id == i) f rs)
      = Option.map (fun r => if r.id == i then f r else r) (findLatest (otpByCode otp) rs) := by
  have hp : ∀ r, otpByCode otp (if r.id == i then f r else r) = otpByCode otp r := by
    intro r
    by_cases hid : (r.id == i) = true
    · simp [otpByCode, hid, hcode r, hpurp r]
    · simp [otpByCode, hid]
  have hc : ∀ r, (if r.id == i then f r else r).createdAt = r.createdAt := by
    intro r
    by_cases hid : (r.id == i) = true
    · simp [hid, hcreated r]
    · simp [hid]
  simpa [findLatest, updateWhere] using
    findLatestAux_map (otpByCode otp) (fun r => if r.id == i then f r else r) hp hc rs none

/-! ### Consume-phase lemmas -/

/-- The payload recovered from a row's snapshot (src/index.js:2404-2409). -/
def recoveredRd (rd : RegData) (phone : String) : RegData :=
  { rd with phoneNumber := if rd.phoneNumber = "" then normalizePhoneNumber phone else rd.phoneNumber }

/-- When the session still holds the payload and the supplied code matches
an unused, unexpired row for that email, the consume phase marks the row
used and hands the payload to the protected action. -/
lemma otpConsumePhase_ready_direct
    (recs : List OTPRec) (session : Session) (c : String) (now : Nat)
    (rec : OTPRec) (rd : RegData)
    (hfmt : is4DigitCode (jsTrim c) = true)
    (hrd : session.data.registrationData = some rd)
    (hrdE : rd.email ≠ "")
    (hfind : findLatest (otpByCode (jsTrim c)) recs = some rec)
    (hmail : rec.email = rd.email)
    (hused : rec.isUsed = false)
    (hexp : ¬ now > rec.expiresAt) :
    otpConsumePhase recs session c now =
      OTPPhase1.ready (updateWhere (fun r => r.id == rec.id)
        (fun r => { r with isUsed := true, usedAt := some now }) recs) rec rd session := by
  simp [otpConsumePhase, hfmt, hrd, hrdE, hfind, hmail, hused, hexp]

/-- When the session lost the payload but the supplied code matches an
unused, unexpired row carrying an encrypted snapshot, the consume phase
recovers the payload from the snapshot and proceeds. -/
lemma otpConsumePhase_ready_recovered
    (recs : List OTPRec) (session : Session) (c : String) (now : Nat)
    (rec : OTPRec) (rd : RegData)
    (hfmt : is4DigitCode (jsTrim c) = true)
    (hrd : session.data.registrationData = none)
    (hfind : findLatest (otpByCode (jsTrim c)) recs = some rec)
    (hmeta : rec.meta = some (encryptData rd))
    (hrdE : rd.email ≠ "")
    (hmail : rec.email = rd.email)
    (hused : rec.isUsed = false)
    (hexp : ¬ now > rec.expiresAt) :
    otpConsumePhase recs session c now =
      OTPPhase1.ready (updateWhere (fun r => r.id == rec.id)
        (fun r => { r with isUsed := true, usedAt := some now }) recs) rec
        (recoveredRd rd session.phoneNumber) session := by
  simp [otpConsumePhase, hfmt, hrd, hfind, recoverFromMeta, hmeta, decryptData, encryptData,
    hrdE, recoveredRd, hmail, hused, hexp]

/-- A used row is rejected with `ALREADY_USED` when the session still holds
the payload. -/
lemma otpConsumePhase_alreadyUsed_direct
    (recs : List OTPRec) (session : Session) (c : String) (now : Nat)
    (rec : OTPRec) (rd : RegData)
    (hfmt : is4DigitCode (jsTrim c) = true)
    (hrd : session.data.registrationData = some rd)
    (hrdE : rd.email ≠ "")
    (hfind : findLatest (otpByCode (jsTrim c)) recs = some rec)
    (hmail : rec.email = rd.email)
    (hused : rec.isUsed = true) :
    otpConsumePhase recs session c now = OTPPhase1.reject recs session VerifyResult.alreadyUsed := by
  simp [otpConsumePhase, hfmt, hrd, hrdE, hfind, hmail, hused]

/-- A used row is rejected with `ALREADY_USED` also on the recovery path
(the payload is first recovered from the snapshot, then the single-use
check fires). -/
lemma otpConsumePhase_alreadyUsed_recovered
    (recs : List OTPRec) (session : Session) (c : String) (now : Nat)
    (rec : OTPRec) (rd : RegData)
    (hfmt : is4DigitCode (jsTrim c) = true)
    (hrd : session.data.registrationData = none)
    (hfind : findLatest (otpByCode (jsTrim c)) recs = some rec)
    (hmeta : rec.meta = some (encryptData rd))
    (hrdE : rd.email ≠ "")
    (hmail : rec.email = rd.email)
    (hused : rec.isUsed = true) :
    otpConsumePhase recs session c now = OTPPhase1.reject recs session VerifyResult.alreadyUsed := by
  simp [otpConsumePhase, hfmt, hrd, hfind, recoverFromMeta, hmeta, decryptData, encryptData,
    hrdE, recoveredRd, hmail, hused]

/-! ### C1 — unconsume on failure -/

/-- C1: when the protected action (`registerUser`) fails after the code
was consumed, the code is reverted to unused and the session stays in
`REGISTERING` awaiting the code; a subsequent verify attempt with the same
code succeeds exactly once more (a third attempt is rejected as already
used). -/
theorem otp_unconsume_on_failure
    (recs : List OTPRec) (session : Session) (c gtok gtok₂ g₃ : String)
    (now₁ now₂ now₃ uid : Nat) (tok : String) (reg₃ : RegisterOutcome)
    (rec : OTPRec) (rd : RegData)
    (hst : session.state = SessState.REGISTERING)
    (hfmt : is4DigitCode (jsTrim c) = true)
    (hrd : session.data.registrationData = some rd)
    (hrdE : rd.email ≠ "")
    (hfind : findLatest (otpByCode (jsTrim c)) recs = some rec)
    (hmail : rec.email = rd.email)
    (hused : rec.isUsed = false)
    (hmeta : rec.meta = some (encryptData rd))
    (hexp₁ : ¬ now₁ > rec.expiresAt) (hexp₂ : ¬ now₂ > rec.expiresAt) :
    (handleRegistrationOTPVerification recs session c now₁ .err gtok).result
        = VerifyResult.registrationFailed
    ∧ (handleRegistrationOTPVerification recs session c now₁ .err gtok).session.state
        = SessState.REGISTERING
    ∧ (handleRegistrationOTPVerification recs session c now₁
        .err gtok).session.data.waitingForOTPVerification = true
    ∧ findLatest (otpByCode (jsTrim c))
        (handleRegistrationOTPVerification recs session c now₁ .err gtok).recs
        = some { rec with isUsed := false, usedAt := none }
    ∧ (handleRegistrationOTPVerification
        (handleRegistrationOTPVerification recs session c now₁ .err gtok).recs
        (handleRegistrationOTPVerification recs session c now₁ .err gtok).session
        c now₂ (.ok uid tok) gtok₂).result = VerifyResult.success
    ∧ (handleRegistrationOTPVerification
        (handleRegistrationOTPVerification recs session c now₁ .err gtok).recs
        (handleRegistrationOTPVerification recs session c now₁ .err gtok).session
        c now₂ (.ok uid tok) gtok₂).session.state = SessState.LOGGED_IN
    ∧ (handleRegistrationOTPVerification
        (handleRegistrationOTPVerification
          (handleRegistrationOTPVerification recs session c now₁ .err gtok).recs
          (handleRegistrationOTPVerification recs session c now₁ .err gtok).session
          c now₂ (.ok uid tok) gtok₂).recs
        (handleRegistrationOTPVerification
          (handleRegistrationOTPVerification recs session c now₁ .err gtok).recs
          (handleRegistrationOTPVerification recs session c now₁ .err gtok).session
          c now₂ (.ok uid tok) gtok₂).session
        c now₃ reg₃ g₃).result = VerifyResult.alreadyUsed := by
  have h1 := otpConsumePhase_ready_direct recs session c now₁ rec rd
    hfmt hrd hrdE hfind hmail hused hexp₁
  have e₁ : handleRegistrationOTPVerification recs session c now₁ .err gtok
      = ⟨updateWhere (fun r => r.id == rec.id)
            (fun r => { r with isUsed := false, usedAt := none })
            (updateWhere (fun r => r.id == rec.id)
              (fun r => { r with isUsed := true, usedAt := some now₁ }) recs),
          { session with data := { session.data with waitingForOTPVerification := true } },
          .registrationFailed⟩ := by
    simp [handleRegistrationOTPVerification, h1]
  have hre : findLatest (otpByCode (jsTrim c))
      (updateWhere (fun r => r.id == rec.id)
        (fun r => { r with isUsed := false, usedAt := none })
        (updateWhere (fun r => r.id == rec.id)
          (fun r => { r with isUsed := true, usedAt := some now₁ }) recs))
      = some { rec with isUsed := false, usedAt := none } := by
    rw [findLatest_updateWhere_id (jsTrim c) _ rec.id
        (fun r => { r with isUsed := false, usedAt := none })
        (fun r => rfl) (fun r => rfl) (fun r => rfl),
      findLatest_updateWhere_id (jsTrim c) _ rec.id
        (fun r => { r with isUsed := true, usedAt := some now₁ })
        (fun r => rfl) (fun r => rfl) (fun r => rfl), hfind]
    simp
  have h2 := otpConsumePhase_ready_direct
    (updateWhere (fun r => r.id == rec.id)
      (fun r => { r with isUsed := false, usedAt := none })
      (updateWhere (fun r => r.id == rec.id)
        (fun r => { r with isUsed := true, usedAt := some now₁ }) recs))
    { session with data := { session.data with waitingForOTPVerification := true } }
    c now₂ { rec with isUsed := false, usedAt := none } rd
    hfmt hrd hrdE hre hmail rfl hexp₂
  have e₂ : handleRegistrationOTPVerification
      (updateWhere (fun r => r.id == rec.id)
        (fun r => { r with isUsed := false, usedAt := none })
        (updateWhere (fun r => r.id == rec.id)
          (fun r => { r with isUsed := true, usedAt := some now₁ }) recs))
      { session with data := { session.data with waitingForOTPVerification := true } }
      c now₂ (.ok uid tok) gtok₂
      = ⟨updateWhere (fun r => r.id == rec.id)
            (fun r => { r with isUsed := true, usedAt := some now₂ })
            (updateWhere (fun r => r.id == rec.id)
              (fun r => { r with isUsed := false, usedAt := none })
              (updateWhere (fun r => r.id == rec.id)
                (fun r => { r with isUsed := true, usedAt := some now₁ }) recs)),
          { session with
            state := SessState.LOGGED_IN,
            data := { session.data with
              userId := some uid,
              token := some (if tok = "" then gtok₂ else tok),
              tokenLastUsed := some now₂,
              waitingForOTPVerification := false,
              registrationData := none,
              emailSendFailed := false } },
          .success⟩ := by
    simp [handleRegistrationOTPVerification, h2]
  have hre₂ : findLatest (otpByCode (jsTrim c))
      (updateWhere (fun r => r.id == rec.id)
        (fun r => { r with isUsed := true, usedAt := some now₂ })
        (updateWhere (fun r => r.id == rec.id)
          (fun r => { r with isUsed := false, usedAt := none })
          (updateWhere (fun r => r.id == rec.id)
            (fun r => { r with isUsed := true, usedAt := some now₁ }) recs)))
      = some { rec with isUsed := true, usedAt := some now₂ } := by
    rw [findLatest_updateWhere_id (jsTrim c) _ rec.id
        (fun r => { r with isUsed := true, usedAt := some now₂ })
        (fun r => rfl) (fun r => rfl) (fun r => rfl), hre]
    simp
  have h3 := otpConsumePhase_alreadyUsed_recovered
    (updateWhere (fun r => r.id == rec.id)
      (fun r => { r with isUsed := true, usedAt := some now₂ })
      (updateWhere (fun r => r.id == rec.id)
        (fun r => { r with isUsed := false, usedAt := none })
        (updateWhere (fun r => r.id == rec.id)
          (fun r => { r with isUsed := true, usedAt := some now₁ }) recs)))
    { session with
      state := SessState.LOGGED_IN,
      data := { session.data with
        userId := some uid,
        token := some (if tok = "" then gtok₂ else tok),
        tokenLastUsed := some now₂,
        waitingForOTPVerification := false,
        registrationData := none,
        emailSendFailed := false } }
    c now₃ { rec with isUsed := true, usedAt := some now₂ } rd
    hfmt rfl hre₂ hmeta hrdE hmail rfl
  refine ⟨by rw [e₁], by rw [e₁]; simpa using hst, by rw [e₁], by rw [e₁]; exact hre,
    ?_, ?_, ?_⟩
  · rw [e₁]
    show (handleRegistrationOTPVerification _ _ c now₂ (.ok uid tok) gtok₂).result = _
    rw [e₂]
  · rw [e₁]
    show (handleRegistrationOTPVerification _ _ c now₂ (.ok uid tok) gtok₂).session.state = _
    rw [e₂]
  · rw [e₁]
    show (handleRegistrationOTPVerification
        (handleRegistrationOTPVerification _ _ c now₂ (.ok uid tok) gtok₂).recs
        (handleRegistrationOTPVerification _ _ c now₂ (.ok uid tok) gtok₂).session
        c now₃ reg₃ g₃).result = _
    rw [e₂]
    show (handleRegistrationOTPVerification _ _ c now₃ reg₃ g₃).result = _
    simp [handleRegistrationOTPVerification, h3]

/-- The unused, unexpired OTP row of the verification witness scenarios,
carrying an encrypted snapshot of `wResendRd`. -/
def wVerifyRow : OTPRec :=
  { id := 3, email := ("a@b"), code := ("4321"), purpose := ("registration"),
    isUsed := false, usedAt := none, expiresAt := 300000, createdAt := 0,
    meta := some (encryptData wResendRd) }

/-- Witness for C1: on a concrete store, after a failed protected action
the same code verifies successfully once more. -/
theorem otp_unconsume_on_failure_witness :
    (handleRegistrationOTPVerification
        (handleRegistrationOTPVerification [wVerifyRow] wResendSession ("4321") 1000 .err ("g")).recs
        (handleRegistrationOTPVerification [wVerifyRow] wResendSession ("4321") 1000 .err ("g")).session
        ("4321") 2000 (.ok 7 ("t")) ("g")).result = VerifyResult.success := by
  exact (otp_unconsume_on_failure [wVerifyRow] wResendSession ("4321") ("g") ("g") ("g")
    1000 2000 3000 7 ("t") .err wVerifyRow wResendRd rfl (by decide) rfl (by decide)
    (by decide) rfl rfl rfl (by decide) (by decide)).2.2.2.2.1

/-! ### C2 — single use, consumed before the action -/

/-- C2: the code is marked used by the consume phase, i.e. before the
protected action runs (whatever its outcome), and verifying the same code
twice in a row — the protected action succeeding the first time — yields
success then an already-used rejection. -/
theorem otp_single_use
    (recs : List OTPRec) (session : Session) (c gtok g₂ : String)
    (now₁ now₂ uid : Nat) (tok : String) (reg₂ : RegisterOutcome)
    (rec : OTPRec) (rd : RegData)
    (hfmt : is4DigitCode (jsTrim c) = true)
    (hrd : session.data.registrationData = some rd)
    (hrdE : rd.email ≠ "")
    (hfind : findLatest (otpByCode (jsTrim c)) recs = some rec)
    (hmail : rec.email = rd.email)
    (hused : rec.isUsed = false)
    (hmeta : rec.meta = some (encryptData rd))
    (hexp₁ : ¬ now₁ > rec.expiresAt) :
    otpConsumePhase recs session c now₁
        = OTPPhase1.ready (updateWhere (fun r => r.id == rec.id)
            (fun r => { r with isUsed := true, usedAt := some now₁ }) recs) rec rd session
    ∧ findLatest (otpByCode (jsTrim c))
        (updateWhere (fun r => r.id == rec.id)
          (fun r => { r with isUsed := true, usedAt := some now₁ }) recs)
        = some { rec with isUsed := true, usedAt := some now₁ }
    ∧ (handleRegistrationOTPVerification recs session c now₁ (.ok uid tok) gtok).result
        = VerifyResult.success
    ∧ (handleRegistrationOTPVerification
        (handleRegistrationOTPVerification recs session c now₁ (.ok uid tok) gtok).recs
        (handleRegistrationOTPVerification recs session c now₁ (.ok uid tok) gtok).session
        c now₂ reg₂ g₂).result = VerifyResult.alreadyUsed := by
  have h1 := otpConsumePhase_ready_direct recs session c now₁ rec rd
    hfmt hrd hrdE hfind hmail hused hexp₁
  have hcons : findLatest (otpByCode (jsTrim c))
      (updateWhere (fun r => r.id == rec.id)
        (fun r => { r with isUsed := true, usedAt := some now₁ }) recs)
      = some { rec with isUsed := true, usedAt := some now₁ } := by
    rw [findLatest_updateWhere_id (jsTrim c) _ rec.id
        (fun r => { r with isUsed := true, usedAt := some now₁ })
        (fun r => rfl) (fun r => rfl) (fun r => rfl), hfind]
    simp
  have e₁ : handleRegistrationOTPVerification recs session c now₁ (.ok uid tok) gtok
      = ⟨updateWhere (fun r => r.id == rec.id)
            (fun r => { r with isUsed := true, usedAt := some now₁ }) recs,
          { session with
            state := SessState.LOGGED_IN,
            data := { session.data with
              userId := some uid,
              token := some (if tok = "" then gtok else tok),
              tokenLastUsed := some now₁,
              waitingForOTPVerification := false,
              registrationData := none,
              emailSendFailed := false } },
          .success⟩ := by
    simp [handleRegistrationOTPVerification, h1]
  have h2 := otpConsumePhase_alreadyUsed_recovered
    (updateWhere (fun r => r.id == rec.id)
      (fun r => { r with isUsed := true, usedAt := some now₁ }) recs)
    { session with
      state := SessState.LOGGED_IN,
      data := { session.data with
        userId := some uid,
        token := some (if tok = "" then gtok else tok),
        tokenLastUsed := some now₁,
        waitingForOTPVerification := false,
        registrationData := none,
        emailSendFailed := false } }
    c now₂ { rec with isUsed := true, usedAt := some now₁ } rd
    hfmt rfl hcons hmeta hrdE hmail rfl
  refine ⟨h1, hcons, by rw [e₁], ?_⟩
  rw [e₁]
  show (handleRegistrationOTPVerification _ _ c now₂ reg₂ g₂).result = _
  simp [handleRegistrationOTPVerification, h2]

/-- Witness for C2: on a concrete store, success then already-used. -/
theorem otp_single_use_witness :
    (handleRegistrationOTPVerification
        (handleRegistrationOTPVerification [wVerifyRow] wResendSession ("4321") 1000
          (.ok 7 ("t")) ("g")).recs
        (handleRegistrationOTPVerification [wVerifyRow] wResendSession ("4321") 1000
          (.ok 7 ("t")) ("g")).session
        ("4321") 2000 (.ok 8 ("t2")) ("g")).result = VerifyResult.alreadyUsed := by
  exact (otp_single_use [wVerifyRow] wResendSession ("4321") ("g") ("g") 1000 2000 7 ("t")
    (.ok 8 ("t2")) wVerifyRow wResendRd (by decide) rfl (by decide) (by decide) rfl rfl rfl
    (by decide)).2.2.2

/-! ### C9 — payload recovery from the encrypted snapshot -/

/-- C9: when the session lost the pending registration payload but the
supplied code matches a valid unused, unexpired row, verification recovers
the payload from the row's encrypted snapshot and the flow completes
(logged in, user created) rather than failing. -/
theorem otp_payload_recovery
    (recs : List OTPRec) (session : Session) (c gtok : String)
    (now uid : Nat) (tok : String) (rec : OTPRec) (rd : RegData)
    (hfmt : is4DigitCode (jsTrim c) = true)
    (hrd : session.data.registrationData = none)
    (hfind : findLatest (otpByCode (jsTrim c)) recs = some rec)
    (hmeta : rec.meta = some (encryptData rd))
    (hrdE : rd.email ≠ "")
    (hmail : rec.email = rd.email)
    (hused : rec.isUsed = false)
    (hexp : ¬ now > rec.expiresAt) :
    (handleRegistrationOTPVerification recs session c now (.ok uid tok) gtok).result
        = VerifyResult.success
    ∧ (handleRegistrationOTPVerification recs session c now (.ok uid tok) gtok).session.state
        = SessState.LOGGED_IN
    ∧ (handleRegistrationOTPVerification recs session c now
        (.ok uid tok) gtok).session.data.userId = some uid
    ∧ (handleRegistrationOTPVerification recs session c now
        (.ok uid tok) gtok).session.data.registrationData = none := by
  have h1 := otpConsumePhase_ready_recovered recs session c now rec rd
    hfmt hrd hfind hmeta hrdE hmail hused hexp
  refine ⟨?_, ?_, ?_, ?_⟩ <;> simp [handleRegistrationOTPVerification, h1]

/-- Witness for C9: a session that lost its payload still completes
registration with the code, recovering the payload from the snapshot. -/
theorem otp_payload_recovery_witness :
    (handleRegistrationOTPVerification [wVerifyRow] sessRegisteringWaiting ("4321") 1000
        (.ok 7 ("t")) ("g")).result = VerifyResult.success := by
  exact (otp_payload_recovery [wVerifyRow] sessRegisteringWaiting ("4321") ("g") 1000 7 ("t")
    wVerifyRow wResendRd (by decide) rfl (by decide) rfl (by decide) rfl rfl (by decide)).1

end Drugo
